import Mathlib

/-!
ESP-NOW / WiFi header declarations.

A shallow embedding of the declarations of `esp_now.h` and of the inline
constructor of `WiFiClass` (`WiFi.h`), with the numeric contracts they fix.

Names that the headers use but that are defined in headers outside the
repository (`ESP_ERR_WIFI_BASE`, `WIFI_SEND_SUCCESS`, `WIFI_SEND_FAIL`,
`wifi_interface_t`, the four base classes of `WiFiClass`) are parameters.
-/

namespace EspNow

/-! ## Error codes (`esp_now.h`, lines 29-38)

Each macro is the parenthesised sum the header writes. `ESP_ERR_WIFI_BASE` comes
from `esp_err.h`, outside the repository, so both its value and its C type are
parameters. The literals `100`, `1`, ..., `9` are `int`, so each sum is computed
in the type of the base: `int` when the base is an `int`, `unsigned int` when it
is an `unsigned int`, and it wraps modulo `2 ^ 32` when it leaves that type. -/

/-- The 32-bit C integer types the base may have. -/
inductive CIntType where
  | int
  | unsigned_int
  deriving DecidableEq

/-- The least value of the type: `INT_MIN`, resp. `0`. -/
def CIntType.minVal : CIntType → Int
  | .int => -(2 ^ 31)
  | .unsigned_int => 0

/-- The greatest value of the type: `INT_MAX`, resp. `UINT_MAX`. -/
def CIntType.maxVal : CIntType → Int
  | .int => 2 ^ 31 - 1
  | .unsigned_int => 2 ^ 32 - 1

/-- The value of the type that a mathematical integer is reduced to: the
two's-complement representative in `[-2^31, 2^31)` for `int`, the residue in
`[0, 2^32)` for `unsigned int`. -/
def CIntType.wrap : CIntType → Int → Int
  | .int, x => (x + 2 ^ 31) % 2 ^ 32 - 2 ^ 31
  | .unsigned_int, x => x % 2 ^ 32

/-- The C sum `a + b` computed in the type `t`. -/
def CIntType.add (t : CIntType) (a b : Int) : Int := t.wrap (a + b)

/-- Macro `#define ESP_ERR_ESPNOW_BASE (ESP_ERR_WIFI_BASE + 100)` -/
def ESP_ERR_ESPNOW_BASE (t : CIntType) (ESP_ERR_WIFI_BASE : Int) : Int :=
  t.add ESP_ERR_WIFI_BASE 100

/-- Macro `#define ESP_ERR_ESPNOW_NOT_INIT (ESP_ERR_ESPNOW_BASE + 1)`: not initialized. -/
def ESP_ERR_ESPNOW_NOT_INIT (t : CIntType) (ESP_ERR_WIFI_BASE : Int) : Int :=
  t.add (ESP_ERR_ESPNOW_BASE t ESP_ERR_WIFI_BASE) 1

/-- Macro `#define ESP_ERR_ESPNOW_ARG (ESP_ERR_ESPNOW_BASE + 2)`: invalid argument. -/
def ESP_ERR_ESPNOW_ARG (t : CIntType) (ESP_ERR_WIFI_BASE : Int) : Int :=
  t.add (ESP_ERR_ESPNOW_BASE t ESP_ERR_WIFI_BASE) 2

/-- Macro `#define ESP_ERR_ESPNOW_NO_MEM (ESP_ERR_ESPNOW_BASE + 3)`: out of memory. -/
def ESP_ERR_ESPNOW_NO_MEM (t : CIntType) (ESP_ERR_WIFI_BASE : Int) : Int :=
  t.add (ESP_ERR_ESPNOW_BASE t ESP_ERR_WIFI_BASE) 3

/-- Macro `#define ESP_ERR_ESPNOW_FULL (ESP_ERR_ESPNOW_BASE + 4)`: peer list full. -/
def ESP_ERR_ESPNOW_FULL (t : CIntType) (ESP_ERR_WIFI_BASE : Int) : Int :=
  t.add (ESP_ERR_ESPNOW_BASE t ESP_ERR_WIFI_BASE) 4

/-- Macro `#define ESP_ERR_ESPNOW_NOT_FOUND (ESP_ERR_ESPNOW_BASE + 5)`: peer not found. -/
def ESP_ERR_ESPNOW_NOT_FOUND (t : CIntType) (ESP_ERR_WIFI_BASE : Int) : Int :=
  t.add (ESP_ERR_ESPNOW_BASE t ESP_ERR_WIFI_BASE) 5

/-- Macro `#define ESP_ERR_ESPNOW_INTERNAL (ESP_ERR_ESPNOW_BASE + 6)`: internal error. -/
def ESP_ERR_ESPNOW_INTERNAL (t : CIntType) (ESP_ERR_WIFI_BASE : Int) : Int :=
  t.add (ESP_ERR_ESPNOW_BASE t ESP_ERR_WIFI_BASE) 6

/-- Macro `#define ESP_ERR_ESPNOW_EXIST (ESP_ERR_ESPNOW_BASE + 7)`: peer already exists. -/
def ESP_ERR_ESPNOW_EXIST (t : CIntType) (ESP_ERR_WIFI_BASE : Int) : Int :=
  t.add (ESP_ERR_ESPNOW_BASE t ESP_ERR_WIFI_BASE) 7

/-- Macro `#define ESP_ERR_ESPNOW_IF (ESP_ERR_ESPNOW_BASE + 8)`: interface error. -/
def ESP_ERR_ESPNOW_IF (t : CIntType) (ESP_ERR_WIFI_BASE : Int) : Int :=
  t.add (ESP_ERR_ESPNOW_BASE t ESP_ERR_WIFI_BASE) 8

/-- Macro `#define ESP_ERR_ESPNOW_CHAN (ESP_ERR_ESPNOW_BASE + 9)`: channel mismatch. -/
def ESP_ERR_ESPNOW_CHAN (t : CIntType) (ESP_ERR_WIFI_BASE : Int) : Int :=
  t.add (ESP_ERR_ESPNOW_BASE t ESP_ERR_WIFI_BASE) 9

/-- The bit pattern of a value stored in a 32-bit `esp_err_t`. -/
def esp_err_t_bits (x : Int) : Int := x % 2 ^ 32

/-! ## Size constants (`esp_now.h`, lines 41-47) -/

/-- Macro `#define ESP_NOW_ETH_ALEN 6` -/
def ESP_NOW_ETH_ALEN : Nat := 6

/-- Macro `#define ESP_NOW_KEY_LEN 16` -/
def ESP_NOW_KEY_LEN : Nat := 16

/-- Macro `#define ESP_NOW_MAX_TOTAL_PEER_NUM 20` -/
def ESP_NOW_MAX_TOTAL_PEER_NUM : Nat := 20

/-- Macro `#define ESP_NOW_MAX_ENCRYPT_PEER_NUM 6` -/
def ESP_NOW_MAX_ENCRYPT_PEER_NUM : Nat := 6

/-- Macro `#define ESP_NOW_MAX_IE_DATA_LEN 250` -/
def ESP_NOW_MAX_IE_DATA_LEN : Nat := 250

/-- Macro `#define ESP_NOW_MAX_DATA_LEN ESP_NOW_MAX_IE_DATA_LEN` -/
def ESP_NOW_MAX_DATA_LEN : Nat := ESP_NOW_MAX_IE_DATA_LEN

/-- Macro `#define ESP_NOW_MAX_DATA_LEN_V2 1470` -/
def ESP_NOW_MAX_DATA_LEN_V2 : Nat := 1470

/-! ## Send status (`esp_now.h`, lines 51-54) -/

/-- The enumerators of `esp_now_send_status_t`. -/
inductive esp_now_send_status_t where
  | ESP_NOW_SEND_SUCCESS
  | ESP_NOW_SEND_FAIL
  deriving DecidableEq

/-- The integer value of each enumerator: `ESP_NOW_SEND_SUCCESS = WIFI_SEND_SUCCESS`,
`ESP_NOW_SEND_FAIL = WIFI_SEND_FAIL`; the two WiFi values come from
`esp_wifi_types.h` and are parameters. -/
def esp_now_send_status_t.value (WIFI_SEND_SUCCESS WIFI_SEND_FAIL : Int) :
    esp_now_send_status_t → Int
  | .ESP_NOW_SEND_SUCCESS => WIFI_SEND_SUCCESS
  | .ESP_NOW_SEND_FAIL => WIFI_SEND_FAIL

/-! ## Peer record (`esp_now.h`, lines 59-66) -/

/-- A `uint8_t` value. -/
abbrev uint8_t : Type := Fin 256

/-- A C array `uint8_t a[n]`: exactly `n` bytes. -/
abbrev ByteArr (n : Nat) : Type := { a : List uint8_t // a.length = n }

/-- A `void *` value, as an address. -/
abbrev VoidPtr : Type := Nat

/-- The record `struct esp_now_peer_info`; `wifi_interface_t` comes from
`esp_wifi_types.h` and is a parameter. -/
structure esp_now_peer_info (wifi_interface_t : Type) where
  /-- Member `uint8_t peer_addr[ESP_NOW_ETH_ALEN]`. -/
  peer_addr : ByteArr ESP_NOW_ETH_ALEN
  /-- Member `uint8_t lmk[ESP_NOW_KEY_LEN]`. -/
  lmk : ByteArr ESP_NOW_KEY_LEN
  /-- Member `uint8_t channel`. -/
  channel : uint8_t
  /-- Member `wifi_interface_t ifidx`. -/
  ifidx : wifi_interface_t
  /-- Member `bool encrypt`. -/
  encrypt : Bool
  /-- Member `void *priv`. -/
  priv : VoidPtr

/-- Type alias `typedef struct esp_now_peer_info { ... } esp_now_peer_info_t;` -/
abbrev esp_now_peer_info_t (wifi_interface_t : Type) : Type :=
  esp_now_peer_info wifi_interface_t

end EspNow

/-! ## `WiFiClass` (`WiFi.h`, lines 57-106) -/

/-- The state of a `WiFiClass` object: the four inherited subobjects
(`WiFiGenericClass`, `WiFiSTAClass`, `WiFiScanClass`, `WiFiAPClass`, declared in
headers outside the repository, so their state types are parameters) and the
private member `bool prov_enable`. -/
structure WiFiClass (WiFiGenericClass WiFiSTAClass WiFiScanClass WiFiAPClass : Type) where
  generic : WiFiGenericClass
  sta : WiFiSTAClass
  scan : WiFiScanClass
  ap : WiFiAPClass
  prov_enable : Bool

/-- The constructor `WiFiClass() { prov_enable = false; }` run on storage whose
prior contents are `prior`: the base-class constructors (parameters) initialise
the inherited subobjects, then the body assigns `prov_enable`. -/
def WiFiClass.ctor {G S C A : Type} (ctorG : G → G) (ctorS : S → S) (ctorC : C → C)
    (ctorA : A → A) (prior : WiFiClass G S C A) : WiFiClass G S C A :=
  let afterBases : WiFiClass G S C A :=
    { prior with
      generic := ctorG prior.generic
      sta := ctorS prior.sta
      scan := ctorC prior.scan
      ap := ctorA prior.ap }
  { afterBases with prov_enable := false }

namespace EspNow

/-! ## Theorems -/

/-- Claim C1: the ESP-NOW size constants are `ESP_NOW_ETH_ALEN = 6`,
`ESP_NOW_KEY_LEN = 16`, `ESP_NOW_MAX_TOTAL_PEER_NUM = 20`,
`ESP_NOW_MAX_ENCRYPT_PEER_NUM = 6`, `ESP_NOW_MAX_IE_DATA_LEN = 250`,
`ESP_NOW_MAX_DATA_LEN_V2 = 1470`, and the alias `ESP_NOW_MAX_DATA_LEN` equals
`ESP_NOW_MAX_IE_DATA_LEN`, that is 250. -/
theorem size_constants_values :
    ESP_NOW_ETH_ALEN = 6 ∧ ESP_NOW_KEY_LEN = 16 ∧ ESP_NOW_MAX_TOTAL_PEER_NUM = 20 ∧
    ESP_NOW_MAX_ENCRYPT_PEER_NUM = 6 ∧ ESP_NOW_MAX_IE_DATA_LEN = 250 ∧
    ESP_NOW_MAX_DATA_LEN_V2 = 1470 ∧
    ESP_NOW_MAX_DATA_LEN = ESP_NOW_MAX_IE_DATA_LEN ∧ ESP_NOW_MAX_DATA_LEN = 250 :=
  ⟨rfl, rfl, rfl, rfl, rfl, rfl, rfl, rfl⟩

/-- Claim C2, as amended: for every value of `ESP_ERR_WIFI_BASE` of type `int` or
`unsigned int` such that `ESP_ERR_WIFI_BASE + 109` does not exceed the greatest
value of that type, `ESP_ERR_ESPNOW_BASE` is `ESP_ERR_WIFI_BASE + 100`, and the
nine error codes NOT_INIT, ARG, NO_MEM, FULL, NOT_FOUND, INTERNAL, EXIST, IF, CHAN
are `ESP_ERR_ESPNOW_BASE + k` for `k = 1, ..., 9` in that order. -/
theorem error_codes_values_in_range (t : CIntType) (ESP_ERR_WIFI_BASE : Int)
    (hlo : t.minVal ≤ ESP_ERR_WIFI_BASE) (hhi : ESP_ERR_WIFI_BASE + 109 ≤ t.maxVal) :
    ESP_ERR_ESPNOW_BASE t ESP_ERR_WIFI_BASE = ESP_ERR_WIFI_BASE + 100 ∧
    ESP_ERR_ESPNOW_NOT_INIT t ESP_ERR_WIFI_BASE = ESP_ERR_ESPNOW_BASE t ESP_ERR_WIFI_BASE + 1 ∧
    ESP_ERR_ESPNOW_ARG t ESP_ERR_WIFI_BASE = ESP_ERR_ESPNOW_BASE t ESP_ERR_WIFI_BASE + 2 ∧
    ESP_ERR_ESPNOW_NO_MEM t ESP_ERR_WIFI_BASE = ESP_ERR_ESPNOW_BASE t ESP_ERR_WIFI_BASE + 3 ∧
    ESP_ERR_ESPNOW_FULL t ESP_ERR_WIFI_BASE = ESP_ERR_ESPNOW_BASE t ESP_ERR_WIFI_BASE + 4 ∧
    ESP_ERR_ESPNOW_NOT_FOUND t ESP_ERR_WIFI_BASE = ESP_ERR_ESPNOW_BASE t ESP_ERR_WIFI_BASE + 5 ∧
    ESP_ERR_ESPNOW_INTERNAL t ESP_ERR_WIFI_BASE = ESP_ERR_ESPNOW_BASE t ESP_ERR_WIFI_BASE + 6 ∧
    ESP_ERR_ESPNOW_EXIST t ESP_ERR_WIFI_BASE = ESP_ERR_ESPNOW_BASE t ESP_ERR_WIFI_BASE + 7 ∧
    ESP_ERR_ESPNOW_IF t ESP_ERR_WIFI_BASE = ESP_ERR_ESPNOW_BASE t ESP_ERR_WIFI_BASE + 8 ∧
    ESP_ERR_ESPNOW_CHAN t ESP_ERR_WIFI_BASE = ESP_ERR_ESPNOW_BASE t ESP_ERR_WIFI_BASE + 9 := by
  cases t <;>
  simp only [ESP_ERR_ESPNOW_NOT_INIT, ESP_ERR_ESPNOW_ARG, ESP_ERR_ESPNOW_NO_MEM,
    ESP_ERR_ESPNOW_FULL, ESP_ERR_ESPNOW_NOT_FOUND, ESP_ERR_ESPNOW_INTERNAL,
    ESP_ERR_ESPNOW_EXIST, ESP_ERR_ESPNOW_IF, ESP_ERR_ESPNOW_CHAN, ESP_ERR_ESPNOW_BASE,
    CIntType.add, CIntType.wrap, CIntType.minVal, CIntType.maxVal] at hlo hhi ⊢ <;>
  omega

/-- The amended claim C2 at the base `0x3000` of type `int`. -/
theorem error_codes_values_in_range_witness :
    CIntType.int.minVal ≤ 0x3000 ∧ (0x3000 : Int) + 109 ≤ CIntType.int.maxVal ∧
    ESP_ERR_ESPNOW_BASE CIntType.int 0x3000 = 0x3000 + 100 ∧
    ESP_ERR_ESPNOW_CHAN CIntType.int 0x3000 = ESP_ERR_ESPNOW_BASE CIntType.int 0x3000 + 9 :=
  have h := error_codes_values_in_range CIntType.int 0x3000 (by decide) (by decide)
  ⟨by decide, by decide, h.1, h.2.2.2.2.2.2.2.2.2⟩

/-- Claim C2 as stated fails at the `int` base `2147483541`: the base code is
`2147483641`, so `ESP_ERR_ESPNOW_EXIST` is `2147483641 + 7` wrapped to
`-2147483648`, which is not `ESP_ERR_ESPNOW_BASE + 7 = 2147483648`. -/
theorem error_codes_values_fails_at_2147483541 :
    CIntType.int.minVal ≤ 2147483541 ∧ (2147483541 : Int) ≤ CIntType.int.maxVal ∧
    ESP_ERR_ESPNOW_BASE CIntType.int 2147483541 = 2147483641 ∧
    ESP_ERR_ESPNOW_EXIST CIntType.int 2147483541 = -2147483648 ∧
    ¬ (ESP_ERR_ESPNOW_BASE CIntType.int 2147483541 = 2147483541 + 100 ∧
       ESP_ERR_ESPNOW_NOT_INIT CIntType.int 2147483541
         = ESP_ERR_ESPNOW_BASE CIntType.int 2147483541 + 1 ∧
       ESP_ERR_ESPNOW_ARG CIntType.int 2147483541
         = ESP_ERR_ESPNOW_BASE CIntType.int 2147483541 + 2 ∧
       ESP_ERR_ESPNOW_NO_MEM CIntType.int 2147483541
         = ESP_ERR_ESPNOW_BASE CIntType.int 2147483541 + 3 ∧
       ESP_ERR_ESPNOW_FULL CIntType.int 2147483541
         = ESP_ERR_ESPNOW_BASE CIntType.int 2147483541 + 4 ∧
       ESP_ERR_ESPNOW_NOT_FOUND CIntType.int 2147483541
         = ESP_ERR_ESPNOW_BASE CIntType.int 2147483541 + 5 ∧
       ESP_ERR_ESPNOW_INTERNAL CIntType.int 2147483541
         = ESP_ERR_ESPNOW_BASE CIntType.int 2147483541 + 6 ∧
       ESP_ERR_ESPNOW_EXIST CIntType.int 2147483541
         = ESP_ERR_ESPNOW_BASE CIntType.int 2147483541 + 7 ∧
       ESP_ERR_ESPNOW_IF CIntType.int 2147483541
         = ESP_ERR_ESPNOW_BASE CIntType.int 2147483541 + 8 ∧
       ESP_ERR_ESPNOW_CHAN CIntType.int 2147483541
         = ESP_ERR_ESPNOW_BASE CIntType.int 2147483541 + 9) := by
  decide

/-- The same failure at the `unsigned int` base `0xFFFFFFFF`: the base code wraps
to `99` and `ESP_ERR_ESPNOW_IF` is `107`, not `0xFFFFFFFF + 108`. -/
theorem error_codes_at_0xFFFFFFFF :
    ESP_ERR_ESPNOW_BASE CIntType.unsigned_int 0xFFFFFFFF = 99 ∧
    ESP_ERR_ESPNOW_IF CIntType.unsigned_int 0xFFFFFFFF = 107 ∧
    ESP_ERR_ESPNOW_BASE CIntType.unsigned_int 0xFFFFFFFF ≠ 0xFFFFFFFF + 100 := by
  decide

/-- For a base that is a value of its type, the equalities of claim C2 all hold
exactly when `ESP_ERR_WIFI_BASE + 109` stays within the type, so that range
condition cannot be relaxed. -/
theorem error_codes_values_iff_in_range (t : CIntType) (ESP_ERR_WIFI_BASE : Int)
    (hlo : t.minVal ≤ ESP_ERR_WIFI_BASE) (hmax : ESP_ERR_WIFI_BASE ≤ t.maxVal) :
    (ESP_ERR_ESPNOW_BASE t ESP_ERR_WIFI_BASE = ESP_ERR_WIFI_BASE + 100 ∧
     ESP_ERR_ESPNOW_NOT_INIT t ESP_ERR_WIFI_BASE = ESP_ERR_ESPNOW_BASE t ESP_ERR_WIFI_BASE + 1 ∧
     ESP_ERR_ESPNOW_ARG t ESP_ERR_WIFI_BASE = ESP_ERR_ESPNOW_BASE t ESP_ERR_WIFI_BASE + 2 ∧
     ESP_ERR_ESPNOW_NO_MEM t ESP_ERR_WIFI_BASE = ESP_ERR_ESPNOW_BASE t ESP_ERR_WIFI_BASE + 3 ∧
     ESP_ERR_ESPNOW_FULL t ESP_ERR_WIFI_BASE = ESP_ERR_ESPNOW_BASE t ESP_ERR_WIFI_BASE + 4 ∧
     ESP_ERR_ESPNOW_NOT_FOUND t ESP_ERR_WIFI_BASE = ESP_ERR_ESPNOW_BASE t ESP_ERR_WIFI_BASE + 5 ∧
     ESP_ERR_ESPNOW_INTERNAL t ESP_ERR_WIFI_BASE = ESP_ERR_ESPNOW_BASE t ESP_ERR_WIFI_BASE + 6 ∧
     ESP_ERR_ESPNOW_EXIST t ESP_ERR_WIFI_BASE = ESP_ERR_ESPNOW_BASE t ESP_ERR_WIFI_BASE + 7 ∧
     ESP_ERR_ESPNOW_IF t ESP_ERR_WIFI_BASE = ESP_ERR_ESPNOW_BASE t ESP_ERR_WIFI_BASE + 8 ∧
     ESP_ERR_ESPNOW_CHAN t ESP_ERR_WIFI_BASE = ESP_ERR_ESPNOW_BASE t ESP_ERR_WIFI_BASE + 9) ↔
    ESP_ERR_WIFI_BASE + 109 ≤ t.maxVal := by
  cases t <;>
  simp only [ESP_ERR_ESPNOW_NOT_INIT, ESP_ERR_ESPNOW_ARG, ESP_ERR_ESPNOW_NO_MEM,
    ESP_ERR_ESPNOW_FULL, ESP_ERR_ESPNOW_NOT_FOUND, ESP_ERR_ESPNOW_INTERNAL,
    ESP_ERR_ESPNOW_EXIST, ESP_ERR_ESPNOW_IF, ESP_ERR_ESPNOW_CHAN, ESP_ERR_ESPNOW_BASE,
    CIntType.add, CIntType.wrap, CIntType.minVal, CIntType.maxVal] at hlo hmax ⊢ <;>
  omega

/-- For every base, in range or not, each code is congruent modulo `2 ^ 32` to the
sum the macro writes: `ESP_ERR_WIFI_BASE + 100 + k`. -/
theorem error_codes_values_mod (t : CIntType) (ESP_ERR_WIFI_BASE : Int) :
    [ESP_ERR_ESPNOW_BASE t ESP_ERR_WIFI_BASE,
     ESP_ERR_ESPNOW_NOT_INIT t ESP_ERR_WIFI_BASE, ESP_ERR_ESPNOW_ARG t ESP_ERR_WIFI_BASE,
     ESP_ERR_ESPNOW_NO_MEM t ESP_ERR_WIFI_BASE, ESP_ERR_ESPNOW_FULL t ESP_ERR_WIFI_BASE,
     ESP_ERR_ESPNOW_NOT_FOUND t ESP_ERR_WIFI_BASE, ESP_ERR_ESPNOW_INTERNAL t ESP_ERR_WIFI_BASE,
     ESP_ERR_ESPNOW_EXIST t ESP_ERR_WIFI_BASE, ESP_ERR_ESPNOW_IF t ESP_ERR_WIFI_BASE,
     ESP_ERR_ESPNOW_CHAN t ESP_ERR_WIFI_BASE].map esp_err_t_bits
      = [0, 1, 2, 3, 4, 5, 6, 7, 8, 9].map
          (fun k => esp_err_t_bits (ESP_ERR_WIFI_BASE + 100 + k)) := by
  cases t <;>
  simp only [ESP_ERR_ESPNOW_NOT_INIT, ESP_ERR_ESPNOW_ARG, ESP_ERR_ESPNOW_NO_MEM,
    ESP_ERR_ESPNOW_FULL, ESP_ERR_ESPNOW_NOT_FOUND, ESP_ERR_ESPNOW_INTERNAL,
    ESP_ERR_ESPNOW_EXIST, ESP_ERR_ESPNOW_IF, ESP_ERR_ESPNOW_CHAN, ESP_ERR_ESPNOW_BASE,
    CIntType.add, CIntType.wrap, CIntType.minVal, CIntType.maxVal,
    esp_err_t_bits, List.map_cons, List.map_nil, List.cons.injEq, and_true] <;>
  omega

/-- A concrete evaluation: with the `int` base at `0x3000` the codes run from
`0x3065` to `0x306d`. -/
theorem error_codes_at_0x3000 :
    ESP_ERR_ESPNOW_BASE CIntType.int 0x3000 = 0x3064 ∧
    ESP_ERR_ESPNOW_NOT_INIT CIntType.int 0x3000 = 0x3065 ∧
    ESP_ERR_ESPNOW_CHAN CIntType.int 0x3000 = 0x306d := by
  decide

/-- Claim C3: for every integer `ESP_ERR_WIFI_BASE`, of type `int` or
`unsigned int`, the nine ESP-NOW error codes (NOT_INIT, ARG, NO_MEM, FULL,
NOT_FOUND, INTERNAL, EXIST, IF, CHAN) are pairwise distinct, and none of them
equals `ESP_ERR_ESPNOW_BASE`. -/
theorem error_codes_distinct (t : CIntType) (ESP_ERR_WIFI_BASE : Int) :
    [ESP_ERR_ESPNOW_NOT_INIT t ESP_ERR_WIFI_BASE, ESP_ERR_ESPNOW_ARG t ESP_ERR_WIFI_BASE,
     ESP_ERR_ESPNOW_NO_MEM t ESP_ERR_WIFI_BASE, ESP_ERR_ESPNOW_FULL t ESP_ERR_WIFI_BASE,
     ESP_ERR_ESPNOW_NOT_FOUND t ESP_ERR_WIFI_BASE, ESP_ERR_ESPNOW_INTERNAL t ESP_ERR_WIFI_BASE,
     ESP_ERR_ESPNOW_EXIST t ESP_ERR_WIFI_BASE, ESP_ERR_ESPNOW_IF t ESP_ERR_WIFI_BASE,
     ESP_ERR_ESPNOW_CHAN t ESP_ERR_WIFI_BASE].Pairwise (fun a b => a ≠ b) ∧
    ∀ c ∈
      [ESP_ERR_ESPNOW_NOT_INIT t ESP_ERR_WIFI_BASE, ESP_ERR_ESPNOW_ARG t ESP_ERR_WIFI_BASE,
       ESP_ERR_ESPNOW_NO_MEM t ESP_ERR_WIFI_BASE, ESP_ERR_ESPNOW_FULL t ESP_ERR_WIFI_BASE,
       ESP_ERR_ESPNOW_NOT_FOUND t ESP_ERR_WIFI_BASE, ESP_ERR_ESPNOW_INTERNAL t ESP_ERR_WIFI_BASE,
       ESP_ERR_ESPNOW_EXIST t ESP_ERR_WIFI_BASE, ESP_ERR_ESPNOW_IF t ESP_ERR_WIFI_BASE,
       ESP_ERR_ESPNOW_CHAN t ESP_ERR_WIFI_BASE],
      c ≠ ESP_ERR_ESPNOW_BASE t ESP_ERR_WIFI_BASE := by
  cases t <;>
  simp only [ESP_ERR_ESPNOW_NOT_INIT, ESP_ERR_ESPNOW_ARG, ESP_ERR_ESPNOW_NO_MEM,
    ESP_ERR_ESPNOW_FULL, ESP_ERR_ESPNOW_NOT_FOUND, ESP_ERR_ESPNOW_INTERNAL,
    ESP_ERR_ESPNOW_EXIST, ESP_ERR_ESPNOW_IF, ESP_ERR_ESPNOW_CHAN, ESP_ERR_ESPNOW_BASE,
    CIntType.add, CIntType.wrap, CIntType.minVal, CIntType.maxVal,
    List.pairwise_cons, List.mem_cons, List.mem_singleton, List.not_mem_nil,
    List.Pairwise.nil, and_true, or_false, forall_eq_or_imp, forall_eq, false_imp_iff,
    imp_true_iff] <;>
  omega

/-- The nine codes and the base stay pairwise distinct as 32-bit `esp_err_t` bit
patterns, whatever the type of the base. -/
theorem error_codes_distinct_bits (t : CIntType) (ESP_ERR_WIFI_BASE : Int) :
    ([ESP_ERR_ESPNOW_BASE t ESP_ERR_WIFI_BASE,
      ESP_ERR_ESPNOW_NOT_INIT t ESP_ERR_WIFI_BASE, ESP_ERR_ESPNOW_ARG t ESP_ERR_WIFI_BASE,
      ESP_ERR_ESPNOW_NO_MEM t ESP_ERR_WIFI_BASE, ESP_ERR_ESPNOW_FULL t ESP_ERR_WIFI_BASE,
      ESP_ERR_ESPNOW_NOT_FOUND t ESP_ERR_WIFI_BASE, ESP_ERR_ESPNOW_INTERNAL t ESP_ERR_WIFI_BASE,
      ESP_ERR_ESPNOW_EXIST t ESP_ERR_WIFI_BASE, ESP_ERR_ESPNOW_IF t ESP_ERR_WIFI_BASE,
      ESP_ERR_ESPNOW_CHAN t ESP_ERR_WIFI_BASE].map esp_err_t_bits).Pairwise
        (fun a b => a ≠ b) := by
  cases t <;>
  simp only [ESP_ERR_ESPNOW_NOT_INIT, ESP_ERR_ESPNOW_ARG, ESP_ERR_ESPNOW_NO_MEM,
    ESP_ERR_ESPNOW_FULL, ESP_ERR_ESPNOW_NOT_FOUND, ESP_ERR_ESPNOW_INTERNAL,
    ESP_ERR_ESPNOW_EXIST, ESP_ERR_ESPNOW_IF, ESP_ERR_ESPNOW_CHAN, ESP_ERR_ESPNOW_BASE,
    CIntType.add, CIntType.wrap, CIntType.minVal, CIntType.maxVal,
    esp_err_t_bits, List.map_cons, List.map_nil, List.pairwise_cons, List.mem_cons,
    List.mem_singleton, List.not_mem_nil, List.Pairwise.nil, and_true, forall_eq_or_imp,
    forall_eq, false_imp_iff, imp_true_iff] <;>
  omega

/-- Claim C4: `esp_now_send_status_t` has exactly two members, success and
failure; for all values of `WIFI_SEND_SUCCESS` and `WIFI_SEND_FAIL` the value of
`ESP_NOW_SEND_SUCCESS` is `WIFI_SEND_SUCCESS` and that of `ESP_NOW_SEND_FAIL` is
`WIFI_SEND_FAIL`, so the two ESP-NOW values differ exactly when the two WiFi
values differ. -/
theorem send_status_aliases (WIFI_SEND_SUCCESS WIFI_SEND_FAIL : Int) :
    (∀ s : esp_now_send_status_t,
      s = esp_now_send_status_t.ESP_NOW_SEND_SUCCESS ∨
      s = esp_now_send_status_t.ESP_NOW_SEND_FAIL) ∧
    esp_now_send_status_t.ESP_NOW_SEND_SUCCESS ≠ esp_now_send_status_t.ESP_NOW_SEND_FAIL ∧
    esp_now_send_status_t.value WIFI_SEND_SUCCESS WIFI_SEND_FAIL
      esp_now_send_status_t.ESP_NOW_SEND_SUCCESS = WIFI_SEND_SUCCESS ∧
    esp_now_send_status_t.value WIFI_SEND_SUCCESS WIFI_SEND_FAIL
      esp_now_send_status_t.ESP_NOW_SEND_FAIL = WIFI_SEND_FAIL ∧
    (esp_now_send_status_t.value WIFI_SEND_SUCCESS WIFI_SEND_FAIL
        esp_now_send_status_t.ESP_NOW_SEND_SUCCESS ≠
      esp_now_send_status_t.value WIFI_SEND_SUCCESS WIFI_SEND_FAIL
        esp_now_send_status_t.ESP_NOW_SEND_FAIL ↔
      WIFI_SEND_SUCCESS ≠ WIFI_SEND_FAIL) := by
  refine ⟨?_, ?_, rfl, rfl, Iff.rfl⟩
  · intro s
    cases s
    · exact Or.inl rfl
    · exact Or.inr rfl
  · intro h
    cases h

/-- Claim C5: every peer record holds a MAC address of exactly
`ESP_NOW_ETH_ALEN = 6` bytes and a local master key of exactly
`ESP_NOW_KEY_LEN = 16` bytes, together with a channel number, an interface
selector, an encryption flag and a user pointer, and no other fields: a record is
determined by these six fields, and every choice of the six is a record. -/
theorem peer_info_fields (wifi_interface_t : Type) :
    (∀ p : esp_now_peer_info_t wifi_interface_t,
      p.peer_addr.val.length = 6 ∧ p.lmk.val.length = 16) ∧
    ESP_NOW_ETH_ALEN = 6 ∧ ESP_NOW_KEY_LEN = 16 ∧
    Function.Bijective
      (fun p : esp_now_peer_info_t wifi_interface_t =>
        ((p.peer_addr, p.lmk, p.channel, p.ifidx, p.encrypt, p.priv) :
          ByteArr ESP_NOW_ETH_ALEN × ByteArr ESP_NOW_KEY_LEN × uint8_t × wifi_interface_t
            × Bool × VoidPtr)) := by
  refine ⟨fun p => ⟨p.peer_addr.property, p.lmk.property⟩, rfl, rfl, ?_, ?_⟩
  · intro p q h
    cases p
    cases q
    simp only [Prod.mk.injEq] at h
    obtain ⟨h1, h2, h3, h4, h5, h6⟩ := h
    subst h1 h2 h3 h4 h5 h6
    rfl
  · rintro ⟨a, k, c, i, e, u⟩
    exact ⟨⟨a, k, c, i, e, u⟩, rfl⟩

/-- Claim C8: the declared limits are consistent:
`ESP_NOW_MAX_ENCRYPT_PEER_NUM ≤ ESP_NOW_MAX_TOTAL_PEER_NUM`, and every payload
length `n` with `n ≤ ESP_NOW_MAX_DATA_LEN` (the v1.0 limit) has
`n ≤ ESP_NOW_MAX_DATA_LEN_V2` (the v2.0 limit). -/
theorem limits_consistent :
    ESP_NOW_MAX_ENCRYPT_PEER_NUM ≤ ESP_NOW_MAX_TOTAL_PEER_NUM ∧
    ∀ n : Nat, n ≤ ESP_NOW_MAX_DATA_LEN → n ≤ ESP_NOW_MAX_DATA_LEN_V2 := by
  refine ⟨by decide, fun n h => Nat.le_trans h (by decide)⟩

/-- The consistency of the limits at the payload length 250, the largest one
v1.0 accepts. -/
theorem limits_consistent_witness :
    250 ≤ ESP_NOW_MAX_DATA_LEN ∧ 250 ≤ ESP_NOW_MAX_DATA_LEN_V2 :=
  ⟨by decide, limits_consistent.2 250 (by decide)⟩

end EspNow

/-- Claim C7: a newly constructed `WiFiClass` object has provisioning disabled:
right after the constructor has run, `prov_enable` is `false`, whatever the
prior contents of the object and whatever the base-class constructors do. -/
theorem WiFiClass_ctor_prov_disabled {G S C A : Type} (ctorG : G → G) (ctorS : S → S)
    (ctorC : C → C) (ctorA : A → A) (prior : WiFiClass G S C A) :
    (WiFiClass.ctor ctorG ctorS ctorC ctorA prior).prov_enable = false :=
  rfl

/-- The constructor on storage that held `prov_enable = true`: the flag is
cleared and the inherited subobjects are those the base constructors leave. -/
theorem WiFiClass_ctor_from_true :
    WiFiClass.ctor (fun g : Nat => g + 1) id id id
        { generic := 0, sta := (), scan := (), ap := (), prov_enable := true }
      = { generic := 1, sta := (), scan := (), ap := (), prov_enable := false } :=
  rfl
